import Mathlib

/-!
Shallow embedding of `src/PerformanceTracker.js` (the Sveltick performance
tracker): the snapshot data model, the signal collectors, the alert
evaluator, the scorer and the feedback ladder, together with theorems
checking the specification's claims about them.

Numeric conventions: JavaScript numbers are modelled as rationals.  The
source resolves each collector with `toFixed(n)`, a decimal rounding applied
at the point of observation; `Math.round` is floor of `x + 1/2`; the loose
`!= null` test is modelled by `Option`, with `none` standing for the
`null` / `undefined` "unknown" sentinel.  Arithmetic on `null` coerces it
to `0` (`null - x` evaluates to `-x` in JavaScript), which `jsNum` mirrors.
-/

/-- One component-render observation `{ name, renderTime }` as pushed by
`trackComponentRender` (line 200 of the source). -/
structure ComponentRender where
  name : String
  renderTime : ℚ
deriving DecidableEq

/-- The mutable snapshot `performanceMetrics` (source lines 46-55): seven
scalar metrics, each `null` (unknown) or a number, plus the append-only
component-render log.  Field order follows the source object literal. -/
structure PerformanceMetrics where
  firstContentfulPaint : Option ℚ
  timeToInteractive : Option ℚ
  largestContentfulPaint : Option ℚ
  cumulativeLayoutShift : Option ℚ
  firstInputDelay : Option ℚ
  interactionToNextPaint : Option ℚ
  timeToFirstByte : Option ℚ
  componentRenderTimes : List ComponentRender
deriving DecidableEq

/-- The initial snapshot: every scalar `null` except `cumulativeLayoutShift`,
which starts at the accumulated `0` (source line 50). -/
def initialMetrics : PerformanceMetrics :=
  { firstContentfulPaint := none
    timeToInteractive := none
    largestContentfulPaint := none
    cumulativeLayoutShift := some 0
    firstInputDelay := none
    interactionToNextPaint := none
    timeToFirstByte := none
    componentRenderTimes := [] }

/-- The fixed `defaultThresholds` object (source lines 2-11). -/
structure Thresholds where
  fcp : ℚ
  lcp : ℚ
  tti : ℚ
  cls : ℚ
  fid : ℚ
  inp : ℚ
  ttfb : ℚ
  componentRenderTime : ℚ

def defaultThresholds : Thresholds :=
  { fcp := 2000
    lcp := 2500
    tti := 3000
    cls := 1/10
    fid := 100
    inp := 200
    ttfb := 800
    componentRenderTime := 500 }

/-- A user-supplied threshold object: every key optional.  A key that the
caller did not set destructures to `undefined` in the source, modelled by
`none`. -/
structure ThresholdConfig where
  fcp : Option ℚ
  lcp : Option ℚ
  tti : Option ℚ
  cls : Option ℚ
  fid : Option ℚ
  inp : Option ℚ
  ttfb : Option ℚ
  componentRenderTime : Option ℚ
deriving DecidableEq

/-- The empty threshold object `{}` — the default argument of
`checkPerformanceAlerts`. -/
def emptyConfig : ThresholdConfig :=
  { fcp := none, lcp := none, tti := none, cls := none, fid := none,
    inp := none, ttfb := none, componentRenderTime := none }

/-- `defaultThresholds` viewed as a fully populated threshold object, the
value the destructuring reads when the caller passed a nullish argument. -/
def defaultThresholdsFull : ThresholdConfig :=
  { fcp := some 2000, lcp := some 2500, tti := some 3000, cls := some (1/10),
    fid := some 100, inp := some 200, ttfb := some 800,
    componentRenderTime := some 500 }

/-- `thresholds || defaultThresholds` (source line 210): only a nullish
argument (modelled as `none`) falls back to the defaults, and then
wholesale; any object argument — including `{}` and genuinely
incomplete configurations — is used as-is. -/
def resolveThresholds : Option ThresholdConfig → ThresholdConfig
  | none => defaultThresholdsFull
  | some t => t

/-- Identifier for one of the seven scalar metrics. -/
inductive MetricKey where
  | fcp
  | lcp
  | tti
  | cls
  | fid
  | inp
  | ttfb
deriving DecidableEq, Fintype

/-- The snapshot field that `checkPerformanceAlerts` reads for a key, in
source order (FCP, LCP, TTI, CLS, FID, INP, TTFB). -/
def scalarOf (k : MetricKey) (m : PerformanceMetrics) : Option ℚ :=
  match k with
  | .fcp => m.firstContentfulPaint
  | .lcp => m.largestContentfulPaint
  | .tti => m.timeToInteractive
  | .cls => m.cumulativeLayoutShift
  | .fid => m.firstInputDelay
  | .inp => m.interactionToNextPaint
  | .ttfb => m.timeToFirstByte

/-- The destructured threshold for a key. -/
def thrOf (k : MetricKey) (t : ThresholdConfig) : Option ℚ :=
  match k with
  | .fcp => t.fcp
  | .lcp => t.lcp
  | .tti => t.tti
  | .cls => t.cls
  | .fid => t.fid
  | .inp => t.inp
  | .ttfb => t.ttfb

/-- The default ceiling for a key. -/
def defaultOf (k : MetricKey) : ℚ :=
  match k with
  | .fcp => defaultThresholds.fcp
  | .lcp => defaultThresholds.lcp
  | .tti => defaultThresholds.tti
  | .cls => defaultThresholds.cls
  | .fid => defaultThresholds.fid
  | .inp => defaultThresholds.inp
  | .ttfb => defaultThresholds.ttfb

/-- Replace one scalar field of the snapshot. -/
def setScalar (k : MetricKey) (v : Option ℚ) (m : PerformanceMetrics) :
    PerformanceMetrics :=
  match k with
  | .fcp => { m with firstContentfulPaint := v }
  | .lcp => { m with largestContentfulPaint := v }
  | .tti => { m with timeToInteractive := v }
  | .cls => { m with cumulativeLayoutShift := v }
  | .fid => { m with firstInputDelay := v }
  | .inp => { m with interactionToNextPaint := v }
  | .ttfb => { m with timeToFirstByte := v }

/-- One emitted alert (`console.warn`), carrying the metric identifier, the
observed value and the threshold it exceeded — or, for a component-render
alert, the component name, the render time and the ceiling. -/
inductive Alert where
  | scalar (metric : MetricKey) (observed : ℚ) (threshold : ℚ)
  | component (name : String) (renderTime : ℚ) (threshold : ℚ)
deriving DecidableEq

/-- One `if (value != null && value > thr) console.warn(...)` block of
`checkPerformanceAlerts`: an alert fires iff the metric is non-nullish and
strictly exceeds the destructured threshold.  A JavaScript `>` comparison
against an `undefined` threshold is false (NaN comparison), hence the
`none` threshold case emits nothing. -/
def scalarAlerts (k : MetricKey) (v : Option ℚ) (thr : Option ℚ) : List Alert :=
  match v, thr with
  | some x, some t => if x > t then [.scalar k x t] else []
  | _, _ => []

/-- The final `componentRenderTimes.forEach` block of
`checkPerformanceAlerts` (source lines 266-272): each record is compared
independently against the single `componentRenderTime` ceiling. -/
def componentAlerts (records : List ComponentRender) (thr : Option ℚ) :
    List Alert :=
  match thr with
  | some t =>
      (records.filter (fun r => decide (r.renderTime > t))).map
        (fun r => .component r.name r.renderTime t)
  | none => []

/-- `checkPerformanceAlerts(thresholds = {})` (source lines 208-273), as the
list of alerts it emits, in source order.  The argument `none` models a
nullish `thresholds`; `some t` models an object argument. -/
def checkPerformanceAlerts (m : PerformanceMetrics)
    (thresholds : Option ThresholdConfig) : List Alert :=
  let t := resolveThresholds thresholds
  scalarAlerts .fcp m.firstContentfulPaint t.fcp ++
  scalarAlerts .lcp m.largestContentfulPaint t.lcp ++
  scalarAlerts .tti m.timeToInteractive t.tti ++
  scalarAlerts .cls m.cumulativeLayoutShift t.cls ++
  scalarAlerts .fid m.firstInputDelay t.fid ++
  scalarAlerts .inp m.interactionToNextPaint t.inp ++
  scalarAlerts .ttfb m.timeToFirstByte t.ttfb ++
  componentAlerts m.componentRenderTimes t.componentRenderTime

/-- JavaScript arithmetic coercion of the stored value: `null` coerces to
`0` in subtraction (`null - x` is `-x`). -/
def jsNum : Option ℚ → ℚ
  | none => 0
  | some v => v

/-- `Math.round`: floor of `x + 1/2` for finite arguments. -/
def jsRound (q : ℚ) : ℤ := ⌊q + 1/2⌋

/-- `x.toFixed(2)` on a non-negative finite number: decimal rounding to two
places.  The source keeps the formatted value as the resolved value. -/
def toFixed2 (q : ℚ) : ℚ := (jsRound (q * 100) : ℚ) / 100

/-- `x.toFixed(4)`: decimal rounding to four places (layout shift). -/
def toFixed4 (q : ℚ) : ℚ := (jsRound (q * 10000) : ℚ) / 10000

def MAX_SCORE : ℚ := 100

/-- The `metricDifferences` array of `calculatePerformanceScore` (source
lines 279-287), in source order. -/
def metricDifferences (m : PerformanceMetrics) : List ℚ :=
  [(jsNum m.firstContentfulPaint - defaultThresholds.fcp) / 100,
   (jsNum m.largestContentfulPaint - defaultThresholds.lcp) / 100,
   (jsNum m.timeToInteractive - defaultThresholds.tti) / 100,
   (jsNum m.cumulativeLayoutShift - defaultThresholds.cls) * 100,
   (jsNum m.firstInputDelay - defaultThresholds.fid) / 100,
   (jsNum m.interactionToNextPaint - defaultThresholds.inp) / 100,
   (jsNum m.timeToFirstByte - defaultThresholds.ttfb) / 100]

/-- The per-record overage of the component-render loop of
`calculatePerformanceScore` (source line 294). -/
def renderDiff (r : ComponentRender) : ℚ :=
  (r.renderTime - defaultThresholds.componentRenderTime) / 100

/-- `calculatePerformanceScore()` (source lines 276-299): start from 100,
subtract every positive overage, then `Math.max(0, Math.round(score))`. -/
def calculatePerformanceScore (m : PerformanceMetrics) : ℤ :=
  let s1 := (metricDifferences m).foldl
    (fun s diff => if diff > 0 then s - diff else s) MAX_SCORE
  let s2 := m.componentRenderTimes.foldl
    (fun s r => if renderDiff r > 0 then s - renderDiff r else s) s1
  max 0 (jsRound s2)

/-- A feedback tier of the `feedbackMap` ladder. -/
inductive Tier where
  | excellent
  | good
  | needsImprovement
deriving DecidableEq

/-- The `feedbackMap` ladder (source lines 303-316), in source order. -/
def feedbackMap : List (ℤ × Tier) :=
  [(90, .excellent), (70, .good), (0, .needsImprovement)]

/-- `provideFeedback(score)` (source lines 302-320):
`feedbackMap.find(fb => score >= fb.threshold)`.  Returns the selected
tier, or `none` when no rung matches (negative score). -/
def provideFeedback (score : ℤ) : Option Tier :=
  (feedbackMap.find? (fun fb => decide (score ≥ fb.1))).map (fun fb => fb.2)

/-- The seven awaited collector results of one aggregation cycle. -/
structure ScalarResults where
  firstContentfulPaint : Option ℚ
  timeToInteractive : Option ℚ
  largestContentfulPaint : Option ℚ
  cumulativeLayoutShift : Option ℚ
  firstInputDelay : Option ℚ
  interactionToNextPaint : Option ℚ
  timeToFirstByte : Option ℚ

/-- The merge performed by `getPerformanceMetrics` (source lines 350-359):
the spread `{ ...performanceMetrics, ...sevenScalars }` replaces exactly
the seven scalar fields and keeps `componentRenderTimes`. -/
def getPerformanceMetrics (prev : PerformanceMetrics) (r : ScalarResults) :
    PerformanceMetrics :=
  { prev with
    firstContentfulPaint := r.firstContentfulPaint
    timeToInteractive := r.timeToInteractive
    largestContentfulPaint := r.largestContentfulPaint
    cumulativeLayoutShift := r.cumulativeLayoutShift
    firstInputDelay := r.firstInputDelay
    interactionToNextPaint := r.interactionToNextPaint
    timeToFirstByte := r.timeToFirstByte }

/-- `trackComponentRender(name, renderTime)` (source lines 199-205): pushes
the raw record synchronously and returns the record with `renderTime`
formatted to two decimals.  The returned pair is (new snapshot, returned
record); the plain (non-promise) return type mirrors the synchronous
source. -/
def trackComponentRender (m : PerformanceMetrics) (name : String)
    (renderTime : ℚ) : PerformanceMetrics × ComponentRender :=
  ({ m with componentRenderTimes :=
      m.componentRenderTimes ++ [{ name := name, renderTime := renderTime }] },
   { name := name, renderTime := toFixed2 renderTime })

/-- Host environment capabilities consulted by the collectors. -/
structure Env where
  hasWindow : Bool
  hasPerformanceObserver : Bool
deriving DecidableEq

/-- The observable fate of a collector call, viewed at (or just after) the
5-second fallback mark: the promise has resolved (with the value and
whether a `console.warn` was surfaced), has rejected (its executor threw),
or is still pending. -/
inductive Outcome where
  | resolved (value : Option ℚ) (warned : Bool)
  | rejected
  | pending
deriving DecidableEq

/-- `trackFirstContentfulPaint()` (source lines 62-78).  `fcpEntry` is the
`startTime` of the buffered `first-contentful-paint` entry, `none` when the
observer never fires with one. -/
def trackFirstContentfulPaint (env : Env) (fcpEntry : Option ℚ) : Outcome :=
  if env.hasWindow && env.hasPerformanceObserver then
    match fcpEntry with
    | some startTime => .resolved (some (toFixed2 startTime)) false
    | none => .pending
  else
    .resolved none false

/-- `trackTimeToInteractive()` (source lines 81-97).  `loadNow` is the
`performance.now()` reading at whichever of the `load` listener or the
`readyState` fallback resolves first, `none` when neither ever fires. -/
def trackTimeToInteractive (env : Env) (loadNow : Option ℚ) : Outcome :=
  if env.hasWindow then
    match loadNow with
    | some t => .resolved (some (toFixed2 t)) false
    | none => .pending
  else
    .resolved none false

/-- `trackLargestContentfulPaint()` (source lines 99-114).  `lastStart` is
the `startTime` of the last entry of the first delivered batch. -/
def trackLargestContentfulPaint (env : Env) (lastStart : Option ℚ) : Outcome :=
  if env.hasWindow && env.hasPerformanceObserver then
    match lastStart with
    | some t => .resolved (some (toFixed2 t)) false
    | none => .pending
  else
    .resolved none false

/-- A buffered `layout-shift` entry. -/
structure LayoutShiftEntry where
  value : ℚ
  hadRecentInput : Bool

/-- The `clsValue` accumulation of `trackCumulativeLayoutShift` (source
lines 120-126): add `entry.value` when `!entry.hadRecentInput` and
`entry.value` is truthy (nonzero). -/
def clsAccumulate (entries : List LayoutShiftEntry) : ℚ :=
  entries.foldl
    (fun acc e => if !e.hadRecentInput && decide (e.value ≠ 0) then acc + e.value else acc)
    0

/-- `trackCumulativeLayoutShift()` (source lines 117-136).  `batch` is the
first delivered list of buffered layout-shift entries. -/
def trackCumulativeLayoutShift (env : Env) (batch : Option (List LayoutShiftEntry)) :
    Outcome :=
  if env.hasWindow && env.hasPerformanceObserver then
    match batch with
    | some entries => .resolved (some (toFixed4 (clsAccumulate entries))) false
    | none => .pending
  else
    .resolved none false

/-- A buffered `first-input` entry. -/
structure FidEntry where
  startTime : ℚ
  processingStart : ℚ

/-- `trackFirstInputDelay()` (source lines 139-162).  `entry` is the
qualifying first-input observation delivered within the 5-second window
(`none` when no observation arrives in the window); `storedFid` is the
global `performanceMetrics.firstInputDelay` that the timeout callback
consults: the timeout resolves `null` (with a warning) only when that
global is still `null`, and otherwise leaves the promise pending. -/
def trackFirstInputDelay (env : Env) (entry : Option FidEntry)
    (storedFid : Option ℚ) : Outcome :=
  if env.hasWindow && env.hasPerformanceObserver then
    match entry with
    | some e => .resolved (some (toFixed2 (e.processingStart - e.startTime))) false
    | none =>
        match storedFid with
        | none => .resolved none true
        | some _ => .pending
  else
    .resolved none false

/-- A click observation: the `performance.now()` reading inside the handler
and the event's `timeStamp`. -/
structure ClickObs where
  nowAtHandler : ℚ
  timeStamp : ℚ

/-- `trackInteractionToNextPaint()` (source lines 165-184).  The source
touches `window.addEventListener` without any environment guard, so with no
`window` binding the executor throws a `ReferenceError` and the promise
rejects.  `click` is the click observation within the 5-second window. -/
def trackInteractionToNextPaint (env : Env) (click : Option ClickObs) : Outcome :=
  if env.hasWindow then
    match click with
    | some c => .resolved (some (toFixed2 (c.nowAtHandler - c.timeStamp))) false
    | none => .resolved none true
  else
    .rejected

/-- `trackTimeToFirstByte()` (source lines 187-196): resolves
`performance.timing.responseStart - performance.timing.requestStart`
formatted, immediately. -/
def trackTimeToFirstByte (env : Env) (requestStart responseStart : ℚ) : Outcome :=
  if env.hasWindow then
    .resolved (some (toFixed2 (responseStart - requestStart))) false
  else
    .resolved none false

/-- A scalar snapshot value the data-model invariant allows: unknown, or a
non-negative number. -/
def validScalar (v : Option ℚ) : Prop := ∀ x, v = some x → 0 ≤ x

/-! ### Scoring normal form -/

/-- The positive part of an overage: what one `if (diff > 0) score -= diff`
step subtracts. -/
def posOv (d : ℚ) : ℚ := if d > 0 then d else 0

theorem posOv_nonneg (d : ℚ) : 0 ≤ posOv d := by
  unfold posOv; split <;> linarith

theorem posOv_mono {a b : ℚ} (h : a ≤ b) : posOv a ≤ posOv b := by
  unfold posOv; split <;> split <;> linarith

theorem posOv_of_nonpos {d : ℚ} (h : d ≤ 0) : posOv d = 0 := by
  unfold posOv; split <;> linarith

theorem foldl_sub_posOv (l : List ℚ) (a : ℚ) :
    l.foldl (fun s d => if d > 0 then s - d else s) a = a - (l.map posOv).sum := by
  induction l generalizing a with
  | nil => simp
  | cons x xs ih =>
      simp only [List.foldl_cons, List.map_cons, List.sum_cons]
      rw [ih]
      unfold posOv
      split <;> ring

/-- Total penalty accumulated by `calculatePerformanceScore`. -/
def totalPenalty (m : PerformanceMetrics) : ℚ :=
  ((metricDifferences m).map posOv).sum +
    ((m.componentRenderTimes.map renderDiff).map posOv).sum

theorem score_eq (m : PerformanceMetrics) :
    calculatePerformanceScore m = max 0 (jsRound (MAX_SCORE - totalPenalty m)) := by
  simp only [calculatePerformanceScore]
  rw [← List.foldl_map renderDiff (fun s d => if d > 0 then s - d else s),
    foldl_sub_posOv, foldl_sub_posOv]
  unfold totalPenalty
  congr 2
  ring

theorem sum_map_posOv_nonneg (l : List ℚ) : 0 ≤ (l.map posOv).sum := by
  apply List.sum_nonneg
  intro x hx
  rcases List.mem_map.mp hx with ⟨d, -, rfl⟩
  exact posOv_nonneg d

theorem totalPenalty_nonneg (m : PerformanceMetrics) : 0 ≤ totalPenalty m := by
  unfold totalPenalty
  have h1 := sum_map_posOv_nonneg (metricDifferences m)
  have h2 := sum_map_posOv_nonneg (m.componentRenderTimes.map renderDiff)
  linarith

theorem score_le_of_penalty_le {m m' : PerformanceMetrics}
    (h : totalPenalty m ≤ totalPenalty m') :
    calculatePerformanceScore m' ≤ calculatePerformanceScore m := by
  rw [score_eq, score_eq]
  apply max_le_max le_rfl
  unfold jsRound
  exact Int.floor_le_floor (by linarith)

/-- C2 (code_bug): evaluation of all seven collectors in an unsupported host
environment (no `window`, no `PerformanceObserver`).  Six of them resolve
immediately to the unknown sentinel, but `trackInteractionToNextPaint` has
no environment guard: its executor dereferences the absent `window`
binding, so the promise rejects instead of resolving to `null`. -/
theorem collectors_unsupported_env_eval :
    trackFirstContentfulPaint ⟨false, false⟩ none = .resolved none false ∧
    trackTimeToInteractive ⟨false, false⟩ none = .resolved none false ∧
    trackLargestContentfulPaint ⟨false, false⟩ none = .resolved none false ∧
    trackCumulativeLayoutShift ⟨false, false⟩ none = .resolved none false ∧
    trackFirstInputDelay ⟨false, false⟩ none none = .resolved none false ∧
    trackTimeToFirstByte ⟨false, false⟩ 0 0 = .resolved none false ∧
    trackInteractionToNextPaint ⟨false, false⟩ none = .rejected ∧
    Outcome.rejected ≠ Outcome.resolved none false :=
  ⟨rfl, rfl, rfl, rfl, rfl, rfl, rfl, by decide⟩

/-- C7 (counterexample): a repeated `trackFirstInputDelay` call made after a
previous aggregation cycle already stored a first-input delay.  With no
qualifying observation in the 5-second window, the timeout callback finds
`performanceMetrics.firstInputDelay !== null` and does not resolve, so the
promise is still pending when the window elapses — it neither resolves to
the unknown sentinel nor surfaces a warning, contradicting the claim that
the 5-second bound holds on every call. -/
theorem trackFirstInputDelay_timeout_counterexample :
    trackFirstInputDelay ⟨true, true⟩ none (some 42) = .pending ∧
    Outcome.pending ≠ Outcome.resolved none true ∧
    Outcome.pending ≠ Outcome.resolved none false :=
  ⟨rfl, by decide, by decide⟩

/-- C7 (amended): in a supported environment, when no qualifying observation
arrives within the 5-second window, `trackInteractionToNextPaint` resolves
to the unknown sentinel with a warning on every call, and
`trackFirstInputDelay` does so only when the stored snapshot's
`firstInputDelay` is still `null` at timeout (e.g. on a first call); a
repeated call after a value was recorded stays pending instead. -/
theorem timeout_fallback_amended (env : Env) (hW : env.hasWindow = true)
    (hP : env.hasPerformanceObserver = true) :
    trackInteractionToNextPaint env none = .resolved none true ∧
    trackFirstInputDelay env none none = .resolved none true ∧
    ∀ v : ℚ, trackFirstInputDelay env none (some v) = .pending := by
  refine ⟨?_, ?_, fun v => ?_⟩ <;>
    simp [trackInteractionToNextPaint, trackFirstInputDelay, hW, hP]

theorem timeout_fallback_amended_witness :
    trackInteractionToNextPaint ⟨true, true⟩ none = .resolved none true ∧
    trackFirstInputDelay ⟨true, true⟩ none none = .resolved none true ∧
    trackFirstInputDelay ⟨true, true⟩ none (some 7) = .pending := by
  obtain ⟨h1, h2, h3⟩ := timeout_fallback_amended ⟨true, true⟩ rfl rfl
  exact ⟨h1, h2, h3 7⟩

/-- C8: aggregation is idempotent on render records — any number of
`getPerformanceMetrics` merge cycles leaves `componentRenderTimes` exactly
as it was, and a single cycle replaces precisely the seven scalar fields
with the awaited collector results. -/
theorem getPerformanceMetrics_preserves_renders (m : PerformanceMetrics)
    (cycles : List ScalarResults) :
    (cycles.foldl getPerformanceMetrics m).componentRenderTimes =
        m.componentRenderTimes ∧
      ∀ r : ScalarResults, getPerformanceMetrics m r =
        { firstContentfulPaint := r.firstContentfulPaint
          timeToInteractive := r.timeToInteractive
          largestContentfulPaint := r.largestContentfulPaint
          cumulativeLayoutShift := r.cumulativeLayoutShift
          firstInputDelay := r.firstInputDelay
          interactionToNextPaint := r.interactionToNextPaint
          timeToFirstByte := r.timeToFirstByte
          componentRenderTimes := m.componentRenderTimes } := by
  constructor
  · induction cycles generalizing m with
    | nil => rfl
    | cons c cs ih =>
        rw [List.foldl_cons]
        exact (ih (getPerformanceMetrics m c)).trans rfl
  · intro r
    rfl

/-- C9: `trackComponentRender("Widget", 734.567)` returns the record
`{name: "Widget", renderTime: 734.57}` (two-decimal formatting) and appends
one record for `"Widget"` to the render sequence, synchronously — its
return type is a plain record, not a promise outcome. -/
theorem trackComponentRender_widget_scenario (m : PerformanceMetrics) :
    (trackComponentRender m "Widget" (734567/1000)).2 =
        { name := "Widget", renderTime := 73457/100 } ∧
      (trackComponentRender m "Widget" (734567/1000)).1.componentRenderTimes =
        m.componentRenderTimes ++ [{ name := "Widget", renderTime := 734567/1000 }] := by
  constructor
  · show ({ name := "Widget", renderTime := toFixed2 (734567/1000) } : ComponentRender) = _
    have hfl : jsRound ((734567 : ℚ)/1000 * 100) = 73457 := by
      unfold jsRound
      rw [Int.floor_eq_iff]
      constructor <;> norm_num
    simp [ComponentRender.mk.injEq, toFixed2, hfl]
  · rfl

/-- Every known scalar sits exactly at its default ceiling and every render
record sits exactly at the component ceiling, so all overages are
non-positive. -/
def atDefaultCeilings (m : PerformanceMetrics) : Prop :=
  (∀ k : MetricKey, scalarOf k m = none ∨ scalarOf k m = some (defaultOf k)) ∧
    ∀ r ∈ m.componentRenderTimes,
      r.renderTime = defaultThresholds.componentRenderTime

theorem jsNum_sub_nonpos {v : Option ℚ} {d : ℚ} (hd : 0 ≤ d)
    (h : v = none ∨ v = some d) : jsNum v - d ≤ 0 := by
  rcases h with h | h <;> simp [h, jsNum]
  linarith

theorem totalPenalty_eq_zero_of_ceilings {m : PerformanceMetrics}
    (h : atDefaultCeilings m) : totalPenalty m = 0 := by
  obtain ⟨hs, hr⟩ := h
  unfold totalPenalty
  have h1 : ((metricDifferences m).map posOv).sum = 0 := by
    apply List.sum_eq_zero
    intro x hx
    rcases List.mem_map.mp hx with ⟨d, hd, rfl⟩
    apply posOv_of_nonpos
    simp only [metricDifferences, List.mem_cons, List.not_mem_nil, or_false] at hd
    rcases hd with rfl | rfl | rfl | rfl | rfl | rfl | rfl
    · have h7 := hs MetricKey.fcp
      simp only [scalarOf, defaultOf] at h7
      have := jsNum_sub_nonpos (by norm_num [defaultThresholds]) h7
      linarith
    · have h7 := hs MetricKey.lcp
      simp only [scalarOf, defaultOf] at h7
      have := jsNum_sub_nonpos (by norm_num [defaultThresholds]) h7
      linarith
    · have h7 := hs MetricKey.tti
      simp only [scalarOf, defaultOf] at h7
      have := jsNum_sub_nonpos (by norm_num [defaultThresholds]) h7
      linarith
    · have h7 := hs MetricKey.cls
      simp only [scalarOf, defaultOf] at h7
      have := jsNum_sub_nonpos (by norm_num [defaultThresholds]) h7
      linarith
    · have h7 := hs MetricKey.fid
      simp only [scalarOf, defaultOf] at h7
      have := jsNum_sub_nonpos (by norm_num [defaultThresholds]) h7
      linarith
    · have h7 := hs MetricKey.inp
      simp only [scalarOf, defaultOf] at h7
      have := jsNum_sub_nonpos (by norm_num [defaultThresholds]) h7
      linarith
    · have h7 := hs MetricKey.ttfb
      simp only [scalarOf, defaultOf] at h7
      have := jsNum_sub_nonpos (by norm_num [defaultThresholds]) h7
      linarith
  have h2 : ((m.componentRenderTimes.map renderDiff).map posOv).sum = 0 := by
    apply List.sum_eq_zero
    intro x hx
    rcases List.mem_map.mp hx with ⟨d, hd, rfl⟩
    rcases List.mem_map.mp hd with ⟨r, hrm, rfl⟩
    apply posOv_of_nonpos
    unfold renderDiff
    rw [hr r hrm]
    norm_num
  rw [h1, h2]
  norm_num

/-- C3: for every snapshot, `calculatePerformanceScore` returns an integer
in [0, 100], and returns exactly 100 when every known metric equals its
default ceiling (all overages non-positive). -/
theorem calculatePerformanceScore_bounded (m : PerformanceMetrics) :
    (0 ≤ calculatePerformanceScore m ∧ calculatePerformanceScore m ≤ 100) ∧
      (atDefaultCeilings m → calculatePerformanceScore m = 100) := by
  have hb : calculatePerformanceScore m ≤ 100 := by
    rw [score_eq]
    have hp := totalPenalty_nonneg m
    have hf : jsRound (MAX_SCORE - totalPenalty m) ≤ 100 := by
      unfold jsRound MAX_SCORE
      calc ⌊(100 : ℚ) - totalPenalty m + 1/2⌋ ≤ ⌊(100 : ℚ) + 1/2⌋ :=
            Int.floor_le_floor (by linarith)
        _ = 100 := by
            rw [Int.floor_eq_iff]
            constructor <;> norm_num
    exact max_le (by norm_num) hf
  refine ⟨⟨?_, hb⟩, fun h => ?_⟩
  · rw [score_eq]
    exact le_max_left 0 _
  · rw [score_eq, totalPenalty_eq_zero_of_ceilings h]
    have h100 : jsRound (MAX_SCORE - 0) = 100 := by
      unfold jsRound MAX_SCORE
      rw [Int.floor_eq_iff]
      constructor <;> norm_num
    rw [h100]
    decide

/-- A snapshot with every metric exactly at its default ceiling. -/
def ceilingSnapshot : PerformanceMetrics :=
  { firstContentfulPaint := some 2000
    timeToInteractive := some 3000
    largestContentfulPaint := some 2500
    cumulativeLayoutShift := some (1/10)
    firstInputDelay := some 100
    interactionToNextPaint := some 200
    timeToFirstByte := some 800
    componentRenderTimes := [{ name := "Widget", renderTime := 500 }] }

theorem calculatePerformanceScore_bounded_witness :
    calculatePerformanceScore ceilingSnapshot = 100 :=
  (calculatePerformanceScore_bounded ceilingSnapshot).2
    (by
      constructor
      · intro k
        cases k <;> simp [ceilingSnapshot, scalarOf, defaultOf, defaultThresholds]
      · intro r hr
        simp only [ceilingSnapshot, List.mem_singleton] at hr
        subst hr
        norm_num [defaultThresholds])

/-- The score-relevant overage term contributed by one scalar metric holding
value `v`, per metric key (source lines 280-286). -/
def diffTerm (k : MetricKey) (v : Option ℚ) : ℚ :=
  match k with
  | .fcp => (jsNum v - defaultThresholds.fcp) / 100
  | .lcp => (jsNum v - defaultThresholds.lcp) / 100
  | .tti => (jsNum v - defaultThresholds.tti) / 100
  | .cls => (jsNum v - defaultThresholds.cls) * 100
  | .fid => (jsNum v - defaultThresholds.fid) / 100
  | .inp => (jsNum v - defaultThresholds.inp) / 100
  | .ttfb => (jsNum v - defaultThresholds.ttfb) / 100

theorem totalPenalty_setScalar (k : MetricKey) (v : Option ℚ)
    (m : PerformanceMetrics) :
    totalPenalty (setScalar k v m) =
      totalPenalty m - posOv (diffTerm k (scalarOf k m)) + posOv (diffTerm k v) := by
  cases k <;>
    simp only [setScalar, totalPenalty, metricDifferences, scalarOf, diffTerm,
      List.map_cons, List.map_nil, List.sum_cons, List.sum_nil] <;>
    ring

theorem diffTerm_mono (k : MetricKey) {v1 v2 : ℚ} (h : v1 ≤ v2) :
    diffTerm k (some v1) ≤ diffTerm k (some v2) := by
  cases k <;> simp only [diffTerm, jsNum] <;> linarith

theorem diffTerm_none_nonpos (k : MetricKey) : diffTerm k none ≤ 0 := by
  cases k <;> norm_num [diffTerm, jsNum, defaultThresholds]

theorem diffTerm_default_eq (k : MetricKey) : diffTerm k (some (defaultOf k)) = 0 := by
  cases k <;> norm_num [diffTerm, jsNum, defaultOf, defaultThresholds]

/-- C4: `calculatePerformanceScore` is monotonically non-increasing in each
known scalar metric and in each render record's time, and an unknown metric
contributes zero penalty — the score with the metric unknown equals the
score with that metric set exactly at its default ceiling (which carries
zero penalty), so the unknown metric does not count toward the score. -/
theorem calculatePerformanceScore_monotone :
    (∀ (k : MetricKey) (m : PerformanceMetrics) (v1 v2 : ℚ), v1 ≤ v2 →
        calculatePerformanceScore (setScalar k (some v2) m) ≤
          calculatePerformanceScore (setScalar k (some v1) m)) ∧
      (∀ (m : PerformanceMetrics) (nm : String) (pre post : List ComponentRender)
          (rt1 rt2 : ℚ), rt1 ≤ rt2 →
          calculatePerformanceScore
              { m with componentRenderTimes :=
                  pre ++ { name := nm, renderTime := rt2 } :: post } ≤
            calculatePerformanceScore
              { m with componentRenderTimes :=
                  pre ++ { name := nm, renderTime := rt1 } :: post }) ∧
      (∀ (k : MetricKey) (m : PerformanceMetrics), scalarOf k m = none →
          calculatePerformanceScore m =
            calculatePerformanceScore (setScalar k (some (defaultOf k)) m)) := by
  refine ⟨fun k m v1 v2 h => score_le_of_penalty_le ?_,
    fun m nm pre post rt1 rt2 h => score_le_of_penalty_le ?_,
    fun k m h => ?_⟩
  · rw [totalPenalty_setScalar, totalPenalty_setScalar]
    have key := posOv_mono (diffTerm_mono k h)
    linarith
  · simp only [totalPenalty, metricDifferences, List.map_append, List.map_cons,
      List.sum_append, List.sum_cons]
    have key : renderDiff { name := nm, renderTime := rt1 } ≤
        renderDiff { name := nm, renderTime := rt2 } := by
      simp only [renderDiff]
      linarith
    have key2 := posOv_mono key
    linarith
  · rw [score_eq, score_eq, totalPenalty_setScalar, h,
      posOv_of_nonpos (diffTerm_none_nonpos k), diffTerm_default_eq k,
      posOv_of_nonpos le_rfl]
    norm_num

theorem calculatePerformanceScore_monotone_witness :
    (calculatePerformanceScore (setScalar .fcp (some 2600) initialMetrics) ≤
        calculatePerformanceScore (setScalar .fcp (some 2500) initialMetrics)) ∧
      (calculatePerformanceScore
          { initialMetrics with componentRenderTimes :=
              [] ++ { name := "W", renderTime := 700 } :: [] } ≤
        calculatePerformanceScore
          { initialMetrics with componentRenderTimes :=
              [] ++ { name := "W", renderTime := 600 } :: [] }) ∧
      calculatePerformanceScore initialMetrics =
        calculatePerformanceScore (setScalar .fcp (some (defaultOf .fcp)) initialMetrics) :=
  ⟨calculatePerformanceScore_monotone.1 .fcp initialMetrics 2500 2600 (by norm_num),
   calculatePerformanceScore_monotone.2.1 initialMetrics "W" [] [] 600 700 (by norm_num),
   calculatePerformanceScore_monotone.2.2 .fcp initialMetrics rfl⟩

/-- C5: for every integer score in [0, 100] the feedback ladder picks the
highest rung whose threshold the score meets or exceeds, inclusive at the
lower edge: 90 and above → excellent, 70 to 89 → good, below 70 → the
needs-improvement tier. -/
theorem provideFeedback_tiers (s : ℤ) (h0 : 0 ≤ s) (h100 : s ≤ 100) :
    (provideFeedback s = some .excellent ↔ 90 ≤ s) ∧
      (provideFeedback s = some .good ↔ 70 ≤ s ∧ s < 90) ∧
      (provideFeedback s = some .needsImprovement ↔ s < 70) := by
  unfold provideFeedback feedbackMap
  rcases le_or_lt 90 s with h90 | h90
  · rw [List.find?_cons_of_pos _ (by simpa using h90)]
    refine ⟨by simpa using h90, ?_, ?_⟩ <;> simp <;> omega
  · rw [List.find?_cons_of_neg _ (by simpa using h90)]
    rcases le_or_lt 70 s with h70 | h70
    · rw [List.find?_cons_of_pos _ (by simpa using h70)]
      refine ⟨?_, ?_, ?_⟩ <;> simp <;> omega
    · rw [List.find?_cons_of_neg _ (by simpa using h70),
        List.find?_cons_of_pos _ (by simpa using h0)]
      refine ⟨?_, ?_, ?_⟩ <;> simp <;> omega

theorem provideFeedback_tiers_witness :
    provideFeedback 90 = some .excellent ∧ provideFeedback 89 = some .good ∧
      provideFeedback 70 = some .good ∧
      provideFeedback 69 = some .needsImprovement ∧
      provideFeedback 0 = some .needsImprovement :=
  ⟨(provideFeedback_tiers 90 (by norm_num) (by norm_num)).1.mpr (by norm_num),
   (provideFeedback_tiers 89 (by norm_num) (by norm_num)).2.1.mpr (by norm_num),
   (provideFeedback_tiers 70 (by norm_num) (by norm_num)).2.1.mpr (by norm_num),
   (provideFeedback_tiers 69 (by norm_num) (by norm_num)).2.2.mpr (by norm_num),
   (provideFeedback_tiers 0 (by norm_num) (by norm_num)).2.2.mpr (by norm_num)⟩

theorem mem_scalarAlerts {k k' : MetricKey} {v t : ℚ} {ov ot : Option ℚ} :
    Alert.scalar k v t ∈ scalarAlerts k' ov ot ↔
      k = k' ∧ ov = some v ∧ ot = some t ∧ t < v := by
  cases ov <;> cases ot <;> simp [scalarAlerts]
  aesop

theorem not_component_mem_scalarAlerts {n : String} {rt t : ℚ} {k : MetricKey}
    {ov ot : Option ℚ} :
    Alert.component n rt t ∉ scalarAlerts k ov ot := by
  cases ov <;> cases ot <;> simp [scalarAlerts]

theorem not_scalar_mem_componentAlerts {k : MetricKey} {v t : ℚ}
    {records : List ComponentRender} {ot : Option ℚ} :
    Alert.scalar k v t ∉ componentAlerts records ot := by
  cases ot <;> simp [componentAlerts]

theorem mem_componentAlerts {n : String} {rt t : ℚ}
    {records : List ComponentRender} {ot : Option ℚ} :
    Alert.component n rt t ∈ componentAlerts records ot ↔
      ot = some t ∧
        ({ name := n, renderTime := rt } : ComponentRender) ∈ records ∧ t < rt := by
  cases ot <;> simp [componentAlerts, List.mem_filter]
  constructor
  · rintro ⟨r, ⟨hr, hgt⟩, rfl, rfl, rfl⟩
    exact ⟨rfl, by simpa using hr, hgt⟩
  · rintro ⟨rfl, hr, hlt⟩
    exact ⟨{ name := n, renderTime := rt }, ⟨hr, hlt⟩, rfl, rfl, rfl⟩

/-- C1 (counterexample): `checkPerformanceAlerts` does not fall back
key-by-key to the defaults.  With the empty (default-argument) threshold
object, a first-contentful-paint of 3000 — known, and strictly above the
fixed default ceiling of 2000 — produces no alert at all, because the
absent `fcp` key destructures to `undefined` and the comparison against
`undefined` is false. -/
theorem checkPerformanceAlerts_absent_key_counterexample :
    checkPerformanceAlerts
        { initialMetrics with firstContentfulPaint := some 3000 }
        (some emptyConfig) = [] ∧
      emptyConfig.fcp = none ∧ defaultThresholds.fcp < 3000 :=
  ⟨rfl, rfl, by norm_num [defaultThresholds]⟩

/-- C1 (amended): `checkPerformanceAlerts` emits an alert for scalar metric
`k` iff the snapshot value is known and the threshold object actually in
force carries a value for `k` that the metric strictly exceeds — where the
object in force is the caller's object verbatim (absent keys are
`undefined` and can never fire), falling back to the full default set only
when the argument itself is nullish; and it emits a component alert for a
record iff that record is in the snapshot and strictly exceeds the
`componentRenderTime` value in force.  Unknown metrics emit nothing. -/
theorem checkPerformanceAlerts_emits_iff (m : PerformanceMetrics)
    (T : Option ThresholdConfig) (k : MetricKey) :
    ((∃ v t, Alert.scalar k v t ∈ checkPerformanceAlerts m T) ↔
      (∃ v, scalarOf k m = some v ∧
        ∃ t, thrOf k (resolveThresholds T) = some t ∧ t < v)) ∧
    (∀ (n : String) (rt t : ℚ),
      Alert.component n rt t ∈ checkPerformanceAlerts m T ↔
        (({ name := n, renderTime := rt } : ComponentRender) ∈
            m.componentRenderTimes ∧
          (resolveThresholds T).componentRenderTime = some t ∧ t < rt)) := by
  constructor
  · simp only [checkPerformanceAlerts, List.mem_append, mem_scalarAlerts,
      not_scalar_mem_componentAlerts, or_false]
    cases k <;> simp [scalarOf, thrOf]
  · intro n rt t
    simp only [checkPerformanceAlerts, List.mem_append, mem_componentAlerts,
      not_component_mem_scalarAlerts, false_or]
    aesop

theorem checkPerformanceAlerts_emits_iff_witness :
    ∃ v t, Alert.scalar .fcp v t ∈
      checkPerformanceAlerts
        { initialMetrics with firstContentfulPaint := some 3000 } none :=
  (checkPerformanceAlerts_emits_iff
      { initialMetrics with firstContentfulPaint := some 3000 } none .fcp).1.mpr
    ⟨3000, rfl, 2000, rfl, by norm_num⟩

/-- C10: the record appended by `trackComponentRender` carries the raw,
unformatted render time, while the returned record carries the two-decimal
formatted value; alert evaluation and scoring read the stored sequence, so
both operate on the raw value: the pushed record is alertable exactly when
its raw time exceeds the ceiling in force, and the push adds exactly the
raw record's positive overage to the score penalty. -/
theorem trackComponentRender_raw_vs_returned (m : PerformanceMetrics)
    (nm : String) (rt : ℚ) :
    ((trackComponentRender m nm rt).1.componentRenderTimes =
        m.componentRenderTimes ++ [{ name := nm, renderTime := rt }]) ∧
      ((trackComponentRender m nm rt).2 =
        { name := nm, renderTime := toFixed2 rt }) ∧
      (∀ (T : Option ThresholdConfig) (t : ℚ),
        (resolveThresholds T).componentRenderTime = some t →
          (Alert.component nm rt t ∈
              checkPerformanceAlerts (trackComponentRender m nm rt).1 T ↔
            t < rt)) ∧
      (totalPenalty (trackComponentRender m nm rt).1 =
        totalPenalty m + posOv (renderDiff { name := nm, renderTime := rt })) := by
  refine ⟨rfl, rfl, fun T t h => ?_, ?_⟩
  · simp only [checkPerformanceAlerts, List.mem_append, mem_componentAlerts,
      not_component_mem_scalarAlerts, false_or, trackComponentRender, h,
      List.mem_singleton]
    simp
  · simp only [trackComponentRender, totalPenalty, metricDifferences,
      List.map_append, List.map_cons, List.map_nil, List.sum_append,
      List.sum_cons, List.sum_nil]
    ring

theorem trackComponentRender_raw_vs_returned_witness :
    ((trackComponentRender initialMetrics "W" 600).1.componentRenderTimes =
        initialMetrics.componentRenderTimes ++ [{ name := "W", renderTime := 600 }]) ∧
      (Alert.component "W" (600 : ℚ) 500 ∈
          checkPerformanceAlerts (trackComponentRender initialMetrics "W" 600).1
            none ↔
        (500 : ℚ) < 600) :=
  ⟨(trackComponentRender_raw_vs_returned initialMetrics "W" 600).1,
   (trackComponentRender_raw_vs_returned initialMetrics "W" 600).2.2.1 none 500 rfl⟩

theorem toFixed2_nonneg {q : ℚ} (h : 0 ≤ q) : 0 ≤ toFixed2 q := by
  unfold toFixed2 jsRound
  apply div_nonneg _ (by norm_num)
  have h2 : (0 : ℤ) ≤ ⌊q * 100 + 1/2⌋ := Int.le_floor.mpr (by push_cast; linarith)
  exact_mod_cast h2

theorem toFixed4_nonneg {q : ℚ} (h : 0 ≤ q) : 0 ≤ toFixed4 q := by
  unfold toFixed4 jsRound
  apply div_nonneg _ (by norm_num)
  have h2 : (0 : ℤ) ≤ ⌊q * 10000 + 1/2⌋ := Int.le_floor.mpr (by push_cast; linarith)
  exact_mod_cast h2

theorem clsFoldl_le (l : List LayoutShiftEntry) (a : ℚ)
    (h : ∀ e ∈ l, 0 ≤ e.value) :
    a ≤ l.foldl
      (fun acc e =>
        if !e.hadRecentInput && decide (e.value ≠ 0) then acc + e.value else acc)
      a := by
  induction l generalizing a with
  | nil => simp
  | cons x xs ih =>
      simp only [List.foldl_cons]
      refine le_trans ?_ (ih _ (fun e he => h e (List.mem_cons_of_mem _ he)))
      split
      · have := h x (List.mem_cons_self _ _)
        linarith
      · exact le_rfl

theorem clsAccumulate_nonneg (l : List LayoutShiftEntry)
    (h : ∀ e ∈ l, 0 ≤ e.value) : 0 ≤ clsAccumulate l :=
  clsFoldl_le l 0 h

/-- The scalar field of one cycle's awaited collector results, per key. -/
def scalarResultOf (k : MetricKey) (r : ScalarResults) : Option ℚ :=
  match k with
  | .fcp => r.firstContentfulPaint
  | .lcp => r.largestContentfulPaint
  | .tti => r.timeToInteractive
  | .cls => r.cumulativeLayoutShift
  | .fid => r.firstInputDelay
  | .inp => r.interactionToNextPaint
  | .ttfb => r.timeToFirstByte

/-- C6: every scalar snapshot field is only ever the unknown sentinel or a
finite non-negative number, with the fixed-precision formatting applied at
the point of observation and stored as the value itself (no separate raw
representation).  Under the host contract (non-negative timestamps,
`processingStart` after `startTime`, handler time after event time,
response after request, non-negative layout-shift values), every value a
collector resolves is either `none` or the formatted raw observation, which
is non-negative; the initial snapshot satisfies the invariant; a merge
cycle replaces each scalar field with exactly the corresponding collector
result; and the render push never touches the scalar fields. -/
theorem scalar_invariant_formatting :
    (∀ (env : Env) (e : Option ℚ), (∀ x, e = some x → 0 ≤ x) →
      ∀ v w, trackFirstContentfulPaint env e = .resolved v w →
        validScalar v ∧ (v = none ∨ ∃ r, e = some r ∧ v = some (toFixed2 r))) ∧
    (∀ (env : Env) (e : Option ℚ), (∀ x, e = some x → 0 ≤ x) →
      ∀ v w, trackTimeToInteractive env e = .resolved v w →
        validScalar v ∧ (v = none ∨ ∃ r, e = some r ∧ v = some (toFixed2 r))) ∧
    (∀ (env : Env) (e : Option ℚ), (∀ x, e = some x → 0 ≤ x) →
      ∀ v w, trackLargestContentfulPaint env e = .resolved v w →
        validScalar v ∧ (v = none ∨ ∃ r, e = some r ∧ v = some (toFixed2 r))) ∧
    (∀ (env : Env) (b : Option (List LayoutShiftEntry)),
      (∀ l, b = some l → ∀ en ∈ l, 0 ≤ en.value) →
      ∀ v w, trackCumulativeLayoutShift env b = .resolved v w →
        validScalar v ∧
          (v = none ∨ ∃ l, b = some l ∧ v = some (toFixed4 (clsAccumulate l)))) ∧
    (∀ (env : Env) (e : Option FidEntry) (storedFid : Option ℚ),
      (∀ x, e = some x → x.startTime ≤ x.processingStart) →
      ∀ v w, trackFirstInputDelay env e storedFid = .resolved v w →
        validScalar v ∧
          (v = none ∨ ∃ x, e = some x ∧
            v = some (toFixed2 (x.processingStart - x.startTime)))) ∧
    (∀ (env : Env) (c : Option ClickObs),
      (∀ x, c = some x → x.timeStamp ≤ x.nowAtHandler) →
      ∀ v w, trackInteractionToNextPaint env c = .resolved v w →
        validScalar v ∧
          (v = none ∨ ∃ x, c = some x ∧
            v = some (toFixed2 (x.nowAtHandler - x.timeStamp)))) ∧
    (∀ (env : Env) (rq rs : ℚ), rq ≤ rs →
      ∀ v w, trackTimeToFirstByte env rq rs = .resolved v w →
        validScalar v ∧ (v = none ∨ v = some (toFixed2 (rs - rq)))) ∧
    (∀ k, validScalar (scalarOf k initialMetrics)) ∧
    (∀ (prev : PerformanceMetrics) (r : ScalarResults) (k : MetricKey),
      scalarOf k (getPerformanceMetrics prev r) = scalarResultOf k r) ∧
    (∀ (m : PerformanceMetrics) (nm : String) (rt : ℚ) (k : MetricKey),
      scalarOf k ((trackComponentRender m nm rt).1) = scalarOf k m) := by
  refine ⟨?_, ?_, ?_, ?_, ?_, ?_, ?_, ?_, ?_, ?_⟩
  · intro env e he v w hres
    unfold trackFirstContentfulPaint at hres
    split at hres
    · cases e with
      | none => exact absurd hres (by simp)
      | some r =>
          obtain ⟨rfl, rfl⟩ : some (toFixed2 r) = v ∧ false = w := by simpa using hres
          refine ⟨fun x hx => ?_, Or.inr ⟨r, rfl, rfl⟩⟩
          obtain rfl : toFixed2 r = x := by simpa using hx
          exact toFixed2_nonneg (he r rfl)
    · obtain ⟨rfl, rfl⟩ : (none : Option ℚ) = v ∧ false = w := by simpa using hres
      exact ⟨fun x hx => by simp at hx, Or.inl rfl⟩
  · intro env e he v w hres
    unfold trackTimeToInteractive at hres
    split at hres
    · cases e with
      | none => exact absurd hres (by simp)
      | some r =>
          obtain ⟨rfl, rfl⟩ : some (toFixed2 r) = v ∧ false = w := by simpa using hres
          refine ⟨fun x hx => ?_, Or.inr ⟨r, rfl, rfl⟩⟩
          obtain rfl : toFixed2 r = x := by simpa using hx
          exact toFixed2_nonneg (he r rfl)
    · obtain ⟨rfl, rfl⟩ : (none : Option ℚ) = v ∧ false = w := by simpa using hres
      exact ⟨fun x hx => by simp at hx, Or.inl rfl⟩
  · intro env e he v w hres
    unfold trackLargestContentfulPaint at hres
    split at hres
    · cases e with
      | none => exact absurd hres (by simp)
      | some r =>
          obtain ⟨rfl, rfl⟩ : some (toFixed2 r) = v ∧ false = w := by simpa using hres
          refine ⟨fun x hx => ?_, Or.inr ⟨r, rfl, rfl⟩⟩
          obtain rfl : toFixed2 r = x := by simpa using hx
          exact toFixed2_nonneg (he r rfl)
    · obtain ⟨rfl, rfl⟩ : (none : Option ℚ) = v ∧ false = w := by simpa using hres
      exact ⟨fun x hx => by simp at hx, Or.inl rfl⟩
  · intro env b hb v w hres
    unfold trackCumulativeLayoutShift at hres
    split at hres
    · cases b with
      | none => exact absurd hres (by simp)
      | some l =>
          obtain ⟨rfl, rfl⟩ : some (toFixed4 (clsAccumulate l)) = v ∧ false = w := by
            simpa using hres
          refine ⟨fun x hx => ?_, Or.inr ⟨l, rfl, rfl⟩⟩
          obtain rfl : toFixed4 (clsAccumulate l) = x := by simpa using hx
          exact toFixed4_nonneg (clsAccumulate_nonneg l (hb l rfl))
    · obtain ⟨rfl, rfl⟩ : (none : Option ℚ) = v ∧ false = w := by simpa using hres
      exact ⟨fun x hx => by simp at hx, Or.inl rfl⟩
  · intro env e storedFid he v w hres
    unfold trackFirstInputDelay at hres
    split at hres
    · cases e with
      | none =>
          cases storedFid with
          | none =>
              obtain ⟨rfl, rfl⟩ : (none : Option ℚ) = v ∧ true = w := by
                simpa using hres
              exact ⟨fun x hx => by simp at hx, Or.inl rfl⟩
          | some q => exact absurd hres (by simp)
      | some x =>
          obtain ⟨rfl, rfl⟩ :
              some (toFixed2 (x.processingStart - x.startTime)) = v ∧ false = w := by
            simpa using hres
          refine ⟨fun y hy => ?_, Or.inr ⟨x, rfl, rfl⟩⟩
          obtain rfl : toFixed2 (x.processingStart - x.startTime) = y := by
            simpa using hy
          exact toFixed2_nonneg (by have := he x rfl; linarith)
    · obtain ⟨rfl, rfl⟩ : (none : Option ℚ) = v ∧ false = w := by simpa using hres
      exact ⟨fun x hx => by simp at hx, Or.inl rfl⟩
  · intro env c hc v w hres
    unfold trackInteractionToNextPaint at hres
    split at hres
    · cases c with
      | none =>
          obtain ⟨rfl, rfl⟩ : (none : Option ℚ) = v ∧ true = w := by simpa using hres
          exact ⟨fun x hx => by simp at hx, Or.inl rfl⟩
      | some x =>
          obtain ⟨rfl, rfl⟩ :
              some (toFixed2 (x.nowAtHandler - x.timeStamp)) = v ∧ false = w := by
            simpa using hres
          refine ⟨fun y hy => ?_, Or.inr ⟨x, rfl, rfl⟩⟩
          obtain rfl : toFixed2 (x.nowAtHandler - x.timeStamp) = y := by
            simpa using hy
          exact toFixed2_nonneg (by have := hc x rfl; linarith)
    · exact absurd hres (by simp)
  · intro env rq rs hle v w hres
    unfold trackTimeToFirstByte at hres
    split at hres
    · obtain ⟨rfl, rfl⟩ : some (toFixed2 (rs - rq)) = v ∧ false = w := by
        simpa using hres
      refine ⟨fun x hx => ?_, Or.inr rfl⟩
      obtain rfl : toFixed2 (rs - rq) = x := by simpa using hx
      exact toFixed2_nonneg (by linarith)
    · obtain ⟨rfl, rfl⟩ : (none : Option ℚ) = v ∧ false = w := by simpa using hres
      exact ⟨fun x hx => by simp at hx, Or.inl rfl⟩
  · intro k
    cases k
    case cls =>
      intro x hx
      obtain rfl : (0 : ℚ) = x := by simpa [initialMetrics, scalarOf] using hx
      norm_num
    all_goals
      intro x hx
      exact absurd hx (by simp [initialMetrics, scalarOf])
  · intro prev r k
    cases k <;> rfl
  · intro m nm rt k
    cases k <;> rfl

theorem scalar_invariant_formatting_witness :
    validScalar (some (toFixed2 3)) ∧
      validScalar (some (toFixed2 5)) ∧
      validScalar (some (toFixed2 6)) ∧
      validScalar
        (some (toFixed4
          (clsAccumulate [{ value := 1/2, hadRecentInput := false }]))) ∧
      validScalar (some (toFixed2 ((7 : ℚ) - 2))) ∧
      validScalar (some (toFixed2 ((9 : ℚ) - 4))) ∧
      validScalar (some (toFixed2 ((8 : ℚ) - 6))) ∧
      validScalar (scalarOf .cls initialMetrics) ∧
      scalarOf .fcp (getPerformanceMetrics initialMetrics
        { firstContentfulPaint := some 1
          timeToInteractive := none
          largestContentfulPaint := none
          cumulativeLayoutShift := none
          firstInputDelay := none
          interactionToNextPaint := none
          timeToFirstByte := none }) = some 1 ∧
      scalarOf .fcp ((trackComponentRender initialMetrics "W" 5).1) = none := by
  obtain ⟨h1, h2, h3, h4, h5, h6, h7, h8, h9, h10⟩ := scalar_invariant_formatting
  refine ⟨?_, ?_, ?_, ?_, ?_, ?_, ?_, h8 .cls, h9 initialMetrics _ .fcp,
    h10 initialMetrics "W" 5 .fcp⟩
  · refine (h1 ⟨true, true⟩ (some 3) ?_ _ _ rfl).1
    rintro x hx
    obtain rfl : (3 : ℚ) = x := by simpa using hx
    norm_num
  · refine (h2 ⟨true, true⟩ (some 5) ?_ _ _ rfl).1
    rintro x hx
    obtain rfl : (5 : ℚ) = x := by simpa using hx
    norm_num
  · refine (h3 ⟨true, true⟩ (some 6) ?_ _ _ rfl).1
    rintro x hx
    obtain rfl : (6 : ℚ) = x := by simpa using hx
    norm_num
  · refine (h4 ⟨true, true⟩
      (some [{ value := 1/2, hadRecentInput := false }]) ?_ _ _ rfl).1
    rintro l hl en hen
    obtain rfl : [({ value := 1/2, hadRecentInput := false } : LayoutShiftEntry)] = l := by
      simpa using hl
    obtain rfl : en = { value := 1/2, hadRecentInput := false } := by simpa using hen
    show (0 : ℚ) ≤ 1/2
    norm_num
  · refine (h5 ⟨true, true⟩ (some { startTime := 2, processingStart := 7 }) none
      ?_ _ _ rfl).1
    rintro x hx
    obtain rfl : ({ startTime := 2, processingStart := 7 } : FidEntry) = x := by
      simpa using hx
    show (2 : ℚ) ≤ 7
    norm_num
  · refine (h6 ⟨true, true⟩ (some { nowAtHandler := 9, timeStamp := 4 }) ?_ _ _ rfl).1
    rintro x hx
    obtain rfl : ({ nowAtHandler := 9, timeStamp := 4 } : ClickObs) = x := by
      simpa using hx
    show (4 : ℚ) ≤ 9
    norm_num
  · exact (h7 ⟨true, true⟩ 6 8 (by norm_num) _ _ rfl).1
